import Mathlib

/-!
Verification of the MamaShield message-processing and risk-routing pipeline.

The definitions below are a shallow embedding of the Python sources:
`danger_detection.py`, `database.py`, `ai_service.py`, `chw_referral.py`
and `routes.py`.  Python strings are modelled as Lean `String`s (lists of
characters), Python `s.lower()` / `s.upper()` / `s.strip()` as the
character-wise ASCII operations, the substring test `a in b` as list
infix containment, and Python slices as explicit index arithmetic on the
character list.  Fallible code is modelled with `Option` / `Except`.
-/

namespace MamaShield

/-- Substring containment: Python `needle in hay` for strings. -/
def containsS (hay needle : String) : Bool :=
  decide (needle.data <:+: hay.data)

/-- Python `s.lower()` (the sources only rely on ASCII case folding). -/
def pyLower (s : String) : String :=
  String.mk (s.data.map Char.toLower)

/-- Python `s.upper()` (the sources only rely on ASCII case folding). -/
def pyUpper (s : String) : String :=
  String.mk (s.data.map Char.toUpper)

/-- Python `s.strip()`: remove leading and trailing whitespace. -/
def pyStrip (s : String) : String :=
  String.mk ((s.data.dropWhile Char.isWhitespace).reverse.dropWhile Char.isWhitespace |>.reverse)

/-- Python `s[:n]` for `n ≥ 0`. -/
def pyTake (n : Nat) (s : String) : String :=
  String.mk (s.data.take n)

/-- Python `s[-4:]`: the last four characters, or all of `s` when it is shorter. -/
def pyLastFour (s : String) : String :=
  String.mk (s.data.drop (s.data.length - 4))

/-- Normalise a Python slice index against a list of length `n`:
negative indices count from the end, and the result is clamped to `[0, n]`. -/
def pyNorm (n : Nat) (i : Int) : Nat :=
  (max 0 (min (if i < 0 then i + n else i) (n : Int))).toNat

/-- Python `s[i:j]` with full negative-index and clamping semantics. -/
def pySlice (s : String) (i j : Int) : String :=
  let n := s.data.length
  let a := pyNorm n i
  let b := pyNorm n j
  String.mk ((s.data.drop a).take (b - a))

/-- Python `s.find(c)` for a one-character pattern: first index or `-1`. -/
def pyFind (s : String) (c : Char) : Int :=
  match s.data.findIdx? (fun d => d = c) with
  | some k => (k : Int)
  | none => -1

/-- Python `s.rfind(c)` for a one-character pattern: last index or `-1`. -/
def pyRfind (s : String) (c : Char) : Int :=
  match s.data.reverse.findIdx? (fun d => d = c) with
  | some k => ((s.data.length - 1 - k : Nat) : Int)
  | none => -1

/-! ## danger_detection.py -/

/-- English danger-sign keywords (`danger_detection.py`, `en_keywords`). -/
def en_keywords : List String :=
  ["bleeding", "severe pain", "headache", "swelling",
   "blurred vision", "convulsions", "fever", "reduced fetal movement"]

/-- Swahili danger-sign keywords (`danger_detection.py`, `sw_keywords`). -/
def sw_keywords : List String :=
  ["damu", "maumivu makali", "kichwa", "uvimbe",
   "kuona giza", "mshtuko", "homa", "mtoto ashangaa"]

/-- Kalenjin danger-sign keywords (`danger_detection.py`, `kal_keywords`). -/
def kal_keywords : List String :=
  ["bleeding", "damu", "pain makali", "kichwa kuuma",
   "swelling", "vision", "convulsions", "homa", "baby not moving"]

/-- Keyword list selected for a language code (`danger_detection.py` lines 31-36). -/
def keywordsFor (language : String) : List String :=
  if language = "kal" then kal_keywords
  else if language = "sw" then sw_keywords
  else en_keywords

/-- The fixed warning template of `detect_danger_signs`; `disclaimer` stands for
the configured `settings.SMS_DISCLAIMER`. -/
def dangerWarning (disclaimer : String) : String :=
  "Danger sign detected! Go to clinic NOW or call 1195. " ++ disclaimer

/-- `detect_danger_signs(text, language)` from `danger_detection.py`:
lower-case the text, scan the per-language keyword list for a substring
match, and return `(True, warning)` on the first hit, else `(False, None)`. -/
def detect_danger_signs (text language disclaimer : String) : Bool × Option String :=
  let text_lower := pyLower text
  match (keywordsFor language).find? (fun kw => containsS text_lower kw) with
  | some _ => (true, some (dangerWarning disclaimer))
  | none => (false, none)

/-! ## database.py: conversation history -/

/-- One `{"role": ..., "content": ...}` entry of a user's conversation history. -/
structure HistEntry where
  role : String
  content : String
deriving DecidableEq, Repr

/-- The pure content of `append_history` (`database.py` lines 82-95):
append the new entry and keep `history[-10:]`, i.e. the last 10 entries. -/
def append_history (history : List HistEntry) (role content : String) : List HistEntry :=
  let h := history ++ [HistEntry.mk role content]
  h.drop (h.length - 10)

/-- Uncurried form of `append_history`, convenient for folding a sequence
of appends over an initial history. -/
def appendEntry (history : List HistEntry) (e : HistEntry) : List HistEntry :=
  append_history history e.role e.content

/-! ## config.py: the settings consumed by the pipeline -/

/-- The environment-provided settings the core reads (`config.py`). -/
structure AppSettings where
  SMS_DISCLAIMER : String
  CHW_PHONE : String
  TEA_CHW_PHONE : String
  FARM_CLINIC_NUMBER : String
deriving DecidableEq, Repr

/-! ## Observable side effects of the pipeline

The metrics sink and the outbound-SMS gateway are external collaborators;
calls into them, and calls into the completion service, are recorded as an
ordered effect trace.  Metric detail payloads are not modelled: no claim
inspects them. -/

/-- One observable side effect of a message-processing turn. -/
inductive Effect where
  | metric (event : String)
  | sms (dest : String) (body : String)
  | completion
deriving DecidableEq, Repr

/-- Modelled from the spec: `log_metric`, imported by `routes.py` and
`chw_referral.py` from `database`, is missing from `src/database.py`.
Per the spec (section 6), the metrics sink is `record(eventType, detailMap)`,
fire-and-forget, and never blocks or fails the caller; a call is therefore
modelled as emitting a single metric effect. -/
def log_metric (event : String) : List Effect :=
  [Effect.metric event]

/-! ## chw_referral.py -/

/-- The CHW alert body built by `send_chw_alert` (`chw_referral.py` lines 20-24):
only `phone[-4:]` of the subject's phone number is interpolated. -/
def chwMessage (phone danger_signs user_location : String) : String :=
  "ALERT: High-risk pregnancy reported. Masked user " ++ pyLastFour phone ++
    " mentioned " ++ danger_signs ++ ". Contact urgently. Location area: " ++
    user_location ++ "."

/-- The farm-clinic referral body built by `send_farm_clinic_referral`
(`chw_referral.py` lines 56-59). -/
def farmClinicMessage (phone reason : String) : String :=
  "Referral: Pregnant woman from tea estate needs " ++ reason ++ ". Contact " ++
    pyLastFour phone ++ " for appointment. MamaShield AI referral."

/-- Effect trace of `send_chw_alert` (`chw_referral.py` lines 11-44): SMS to the
primary CHW, optionally to the tea-farm CHW when configured, then the
`chw_referral` metric. -/
def chwAlertEffects (st : AppSettings) (phone danger_signs user_location : String) :
    List Effect :=
  let body := chwMessage phone danger_signs user_location
  [Effect.sms st.CHW_PHONE body] ++
    (if st.TEA_CHW_PHONE ≠ "" then [Effect.sms st.TEA_CHW_PHONE body] else []) ++
    log_metric "chw_referral"

/-- Effect trace of `send_farm_clinic_referral` (`chw_referral.py` lines 47-68):
nothing happens unless a farm clinic number is configured. -/
def farmClinicReferralEffects (st : AppSettings) (phone reason : String) : List Effect :=
  if st.FARM_CLINIC_NUMBER ≠ "" then
    [Effect.sms st.FARM_CLINIC_NUMBER (farmClinicMessage phone reason)] ++
      log_metric "farm_clinic_referral"
  else []

/-- The thank-you text of `send_anc_visit_thank_you` (`chw_referral.py` lines 80-83). -/
def ancThankYouMessage (language : String) : String :=
  if language = "kal" then
    "Kongoi! (Thank you!) Great job attending ANC. Keep it up for healthy pregnancy! Drink mwaiti and rest well."
  else
    "Thank you for attending ANC! You're taking great care of yourself and baby. Keep going to all visits!"

/-- Effect trace of `send_anc_visit_thank_you` (`chw_referral.py` lines 71-93). -/
def ancThankYouEffects (phone language : String) : List Effect :=
  [Effect.sms phone (ancThankYouMessage language)] ++ log_metric "anc_visit_confirmed"

/-- Effect trace of `track_farm_worker_engagement` (`chw_referral.py` lines 122-131). -/
def trackFarmEngagementEffects : List Effect :=
  log_metric "tea_farm_engagement"

/-- `get_farm_specific_tips(season, language)` (`chw_referral.py` lines 96-119). -/
def get_farm_specific_tips (season language : String) : String :=
  let pickingEn := "During tea picking: Take breaks every hour, stay hydrated (drink mwaiti/water), avoid heavy lifting. Ask supervisor for lighter tasks if tired."
  let pickingKal := "Wakati wa kuchuma chai: Rest often, drink mwaiti (milk) na maji, don't carry heavy baskets when pregnant. Tell supervisor if you feel tired."
  let generalEn := "Tea farm moms: Wear comfortable shoes, use sun protection, drink plenty of fluids. Report any dizziness to CHW at farm clinic."
  let generalKal := "Mama wa shamba chai: Drink mwaiti, rest when tired, protect from sun. If dizzy, go to clinic haraka (quickly)."
  if season = "picking" then
    (if language = "kal" then pickingKal else if language = "en" then pickingEn else pickingEn)
  else
    (if language = "kal" then generalKal else if language = "en" then generalEn else generalEn)

/-! ## The orchestrator's user record and risk-assessment result

`routes.py` reads `user.is_tea_farm_worker` and `user.interaction_count` and
calls `get_grok_risk_assessment`, none of which exist in `src/` (the stored
schema in `src/database.py` has neither column, and no module defines
`get_grok_risk_assessment`). -/

/-- Modelled from the spec: the User Record of spec section 3.  The spec's data
model carries an interaction count (monotonic integer) and a tea-farm-worker
flag, which are missing from the stored schema in `src/database.py`; the
orchestrator is specified against this richer record.  `interaction_count`
absorbs the code's `(user.interaction_count or 0)` default. -/
structure UserRec where
  language : Option String
  pregnancy_weeks : Option Nat
  is_tea_farm_worker : Bool
  interaction_count : Nat
  history : List HistEntry
deriving DecidableEq, Repr

/-- Modelled from the spec: the Risk Assessment Result of spec section 3,
produced by the Risk Assessment Client that `routes.py` invokes under the
(nowhere-defined) name `get_grok_risk_assessment`.  The risk level is a
rational in place of the spec's real number. -/
structure RiskResult where
  response_text : String
  risk_level : ℚ
  reason : String
  recommended_action : String
deriving DecidableEq, Repr

/-! ## routes.py: process_message -/

/-- The feedback-branch guard of `process_message` (`routes.py` line 39). -/
def feedbackCond (tu : String) : Bool :=
  (tu = "HELPFUL" || tu = "NOT HELPFUL") ||
    (tu.length ≤ 20 && (containsS tu "HELP" || containsS tu "YES" || containsS tu "NO"))

/-- The feedback sentiment of `process_message` (`routes.py` line 40). -/
def feedbackValue (tu : String) : String :=
  if containsS tu "YES" || containsS tu "Y" || containsS tu "HELPFUL" || containsS tu "GOOD"
  then "positive" else "negative"

/-- The branch a turn takes, in the strict order of the `process_message`
if-chain (`routes.py` lines 27-74). -/
inductive Branch where
  | tea
  | feedback
  | ancYes
  | ancNo
  | danger
  | general
deriving DecidableEq, Repr

/-- Branch classification of one inbound text, following the guards of
`process_message` in order: TEA registration, feedback, ANC poll reply
(Y/YES vs N/NO), danger detection, then the general query path. -/
def classify (text language disclaimer : String) : Branch :=
  let tu := pyUpper (pyStrip text)
  if tu = "TEA" then Branch.tea
  else if feedbackCond tu then Branch.feedback
  else if tu = "Y" ∨ tu = "YES" then Branch.ancYes
  else if tu = "N" ∨ tu = "NO" then Branch.ancNo
  else if (detect_danger_signs text language disclaimer).1 then Branch.danger
  else Branch.general

/-- The cadence suffix appended to the reply in the general-query branch
(`routes.py` lines 100-119), as a function of the incremented interaction
count and the tea-farm flag. -/
def cadenceSuffix (count : Nat) (is_tea : Bool) (language : String) : String :=
  (if count = 1 then " Reply TEA if you work/pick tea - get special tips for farm moms." else "") ++
  (if count % 5 = 0 then " Was our advice helpful? Reply YES or NO."
   else if count % 4 = 0 then " Did you attend ANC this month? Reply Y for yes, N for no."
   else "") ++
  (if is_tea ∧ count % 3 = 0 then
    " Farm tip: " ++ pyTake 80 (get_farm_specific_tips "picking" language) ++ "..."
   else "")

/-- The cadence metrics emitted in the general-query branch
(`routes.py` line 106): a metric accompanies only the feedback poll. -/
def cadenceEffects (count : Nat) : List Effect :=
  if count % 5 = 0 then log_metric "feedback_poll_sent" else []

/-- The risk-handling step of the general-query branch (`routes.py` lines
86-95): above risk 0.6 a CHW alert is sent, and only inside that case an
URGENT notice is prepended when the action is `emergency` or risk exceeds
0.8.  Returns the (possibly rewritten) reply and the emitted effects. -/
def riskHandling (st : AppSettings) (risk : RiskResult) (is_tea : Bool)
    (phone text : String) : String × List Effect :=
  let ai_response := risk.response_text
  if risk.risk_level > 6/10 then
    let location := if is_tea then "Mulot tea zone" else "Bomet area"
    let fx := log_metric "high_risk_detected" ++
      chwAlertEffects st phone (pyTake 50 text ++ " - Risk: " ++ risk.reason) location
    let ai_response :=
      if risk.recommended_action = "emergency" ∨ risk.risk_level > 8/10 then
        "URGENT: " ++ ai_response ++ " Call 1195 or go to clinic NOW."
      else ai_response
    (ai_response, fx)
  else (ai_response, [])

/-- `process_message(phone, text)` (`routes.py` lines 19-127) over the
spec-modelled user record, with the user state passed and returned
explicitly and side effects recorded as a trace.  `risk` stands for the
result of the Risk Assessment Client call of the general-query branch
(spec section 4.5 step 6); the `Effect.completion` entry marks that call. -/
def process_message (st : AppSettings) (risk : RiskResult) (u : UserRec)
    (phone text : String) : String × List Effect × UserRec :=
  let language := u.language.getD "en"
  match classify text language st.SMS_DISCLAIMER with
  | Branch.tea =>
      let u' := { u with is_tea_farm_worker := true, language := some "kal" }
      let farm_tips := get_farm_specific_tips "picking" "kal"
      let response := "Welcome tea farm mama! " ++ farm_tips ++
        " We'll send you special tips for farm workers."
      (response, trackFarmEngagementEffects ++ log_metric "tea_farm_registration", u')
  | Branch.feedback =>
      let tu := pyUpper (pyStrip text)
      let u' := { u with history := append_history u.history "feedback" (feedbackValue tu) }
      ("Thank you for your feedback! It helps us improve MamaShield for all mamas.",
        log_metric "feedback_received", u')
  | Branch.ancYes =>
      let fx := log_metric "anc_poll_yes" ++ ancThankYouEffects phone language ++
        (if u.is_tea_farm_worker then trackFarmEngagementEffects else [])
      ("Great! Keep attending your ANC visits. Your health matters!", fx, u)
  | Branch.ancNo =>
      ("Please visit your clinic soon for ANC checkup. It's important for you and baby.",
        log_metric "anc_poll_no", u)
  | Branch.danger =>
      let danger_msg := (detect_danger_signs text language st.SMS_DISCLAIMER).2.getD ""
      let location := if u.is_tea_farm_worker then "Mulot tea zone" else "Bomet area"
      let fx := log_metric "danger_flag" ++ chwAlertEffects st phone (pyTake 100 text) location
      let u' := { u with history :=
        (append_history (append_history u.history "user" text) "assistant" danger_msg) }
      (danger_msg, fx, u')
  | Branch.general =>
      let rh := riskHandling st risk u.is_tea_farm_worker phone text
      let count := u.interaction_count + 1
      let reply := rh.1 ++ cadenceSuffix count u.is_tea_farm_worker language
      let u' := { u with interaction_count := count, history :=
        (append_history (append_history u.history "user" text) "assistant" reply) }
      (reply, [Effect.completion] ++ rh.2 ++ cadenceEffects count, u')

/-! ## database.py: the stored User schema and update_user

The SQLAlchemy `User` model (`database.py` lines 14-24) declares exactly
seven columns.  `update_user` applies `setattr(user, k, v)` for each keyword
argument and commits: a mapped column is persisted, while setting a
non-column name only creates a transient Python attribute on the session
instance, which is discarded when the session closes. -/

/-- The column names of the `User` model (`database.py` lines 18-24). -/
def userColumns : List String :=
  ["id", "phone_hash", "language", "pregnancy_due_date", "pregnancy_weeks",
   "last_interaction", "history"]

/-- A value assignable to a user attribute (integers, strings, dates and
timestamps collapsed to integers, JSON history lists). -/
inductive ColVal where
  | vint (i : Int)
  | vstr (s : String)
  | vhist (h : List HistEntry)
  | vnone
deriving DecidableEq, Repr

/-- The stored (persisted) user row, with exactly the seven declared columns. -/
structure StoredUser where
  id : Int
  phone_hash : String
  language : Option String
  pregnancy_due_date : Option Int
  pregnancy_weeks : Option Int
  last_interaction : Int
  history : List HistEntry
deriving DecidableEq, Repr

/-- `setattr(user, k, v)` restricted to its persistent outcome: assignments to
the seven mapped columns update the row, anything else leaves it unchanged
(the transient attribute is tracked separately in `update_user_session`). -/
def setattrColumn (u : StoredUser) (k : String) (v : ColVal) : StoredUser :=
  match k, v with
  | "id", ColVal.vint i => { u with id := i }
  | "phone_hash", ColVal.vstr s => { u with phone_hash := s }
  | "language", ColVal.vstr s => { u with language := some s }
  | "language", ColVal.vnone => { u with language := none }
  | "pregnancy_due_date", ColVal.vint i => { u with pregnancy_due_date := some i }
  | "pregnancy_due_date", ColVal.vnone => { u with pregnancy_due_date := none }
  | "pregnancy_weeks", ColVal.vint i => { u with pregnancy_weeks := some i }
  | "pregnancy_weeks", ColVal.vnone => { u with pregnancy_weeks := none }
  | "last_interaction", ColVal.vint i => { u with last_interaction := i }
  | "history", ColVal.vhist h => { u with history := h }
  | _, _ => u

/-- `update_user(phone_hash, **kwargs)` (`database.py` lines 68-79) on the
session instance: the persisted row paired with the transient (non-column)
attributes set on the instance.  Only the first component survives the
commit and the session close. -/
def update_user_session (u : StoredUser) (kwargs : List (String × ColVal)) :
    StoredUser × List (String × ColVal) :=
  kwargs.foldl
    (fun st kv =>
      if kv.1 ∈ userColumns then (setattrColumn st.1 kv.1 kv.2, st.2)
      else (st.1, st.2 ++ [kv]))
    (u, [])

/-- The stored row after `update_user` returns and the session is gone. -/
def storedAfterUpdate (u : StoredUser) (kwargs : List (String × ColVal)) : StoredUser :=
  (update_user_session u kwargs).1

/-- Python attribute read `getattr(user, k)` against the stored row: `some`
for the seven mapped columns, `none` (an `AttributeError` in Python) for any
other name. -/
def readAttr (u : StoredUser) (k : String) : Option ColVal :=
  match k with
  | "id" => some (ColVal.vint u.id)
  | "phone_hash" => some (ColVal.vstr u.phone_hash)
  | "language" => some (match u.language with | some s => ColVal.vstr s | none => ColVal.vnone)
  | "pregnancy_due_date" =>
      some (match u.pregnancy_due_date with | some i => ColVal.vint i | none => ColVal.vnone)
  | "pregnancy_weeks" =>
      some (match u.pregnancy_weeks with | some i => ColVal.vint i | none => ColVal.vnone)
  | "last_interaction" => some (ColVal.vint u.last_interaction)
  | "history" => some (ColVal.vhist u.history)
  | _ => none

/-! ## Unresolved names in routes.py

`routes.py` line 8 is `from database import get_or_create_user,
append_history, log_metric, update_user`, but `database.py` defines no
`log_metric`; `routes.py` line 80 calls `get_grok_risk_assessment`, which no
module of the repository defines.  Binding an import of a missing name, or
evaluating an undefined global, is modelled as raising a `NameError` at the
point of use. -/

/-- The top-level names defined by `database.py`. -/
def databaseModuleDefs : List String :=
  ["Base", "User", "engine", "AsyncSessionLocal", "init_db", "get_or_create_user",
   "update_user", "append_history"]

/-- Every top-level name defined by any module under `src/`. -/
def repoDefinedNames : List String :=
  ["Base", "User", "engine", "AsyncSessionLocal", "init_db", "get_or_create_user",
   "update_user", "append_history",
   "Settings", "settings",
   "detect_danger_signs",
   "enrich_prompt_with_culture", "get_ai_response", "get_ai_risk_assessment",
   "_call_ai_api",
   "get_grok_response",
   "send_sms", "sms",
   "send_chw_alert", "send_farm_clinic_referral", "send_anc_visit_thank_you",
   "get_farm_specific_tips", "track_farm_worker_engagement",
   "KALENJIN_RECOMMENDED_FOODS", "KALENJIN_AVOIDED_FOODS_HIGH",
   "KALENJIN_AVOIDED_FOODS_MODERATE", "KALENJIN_PREGNANCY_VALUES",
   "get_cultural_food_advice", "get_kalenjin_phrase", "is_culturally_sensitive_topic",
   "router", "limiter", "process_message", "receive_sms", "ussd_callback",
   "app", "DISCLAIMER", "startup", "root",
   "export_metrics"]

/-- Evaluating an undefined name raises `NameError`. -/
def undefinedName (n : String) : Except String String :=
  Except.error ("NameError: name " ++ n ++ " is not defined")

/-- `process_message` under the actual (broken) bindings of `routes.py`:
each branch runs until its first evaluation of an unresolvable name.
The TEA branch reaches `track_farm_worker_engagement`, whose first statement
is a `log_metric` call (`chw_referral.py` line 128); the feedback, ANC and
danger branches call `log_metric` directly before returning
(`routes.py` lines 41, 46, 56, 63); the general branch calls
`get_grok_risk_assessment` (`routes.py` line 80). -/
def process_message_strict (u : StoredUser) (_phone text : String) :
    Except String String :=
  let language := (u.language).getD "en"
  let tu := pyUpper (pyStrip text)
  if tu = "TEA" then
    -- update_user succeeds, then track_farm_worker_engagement evaluates log_metric
    undefinedName "log_metric"
  else if feedbackCond tu then
    -- await log_metric("feedback_received", ...)
    undefinedName "log_metric"
  else if tu = "Y" ∨ tu = "YES" then
    -- await log_metric("anc_poll_yes", ...)
    undefinedName "log_metric"
  else if tu = "N" ∨ tu = "NO" then
    -- await log_metric("anc_poll_no", ...)
    undefinedName "log_metric"
  else if (detect_danger_signs text language "").1 then
    -- await log_metric("danger_flag", ...)
    undefinedName "log_metric"
  else
    -- risk_assessment = await get_grok_risk_assessment(...)
    undefinedName "get_grok_risk_assessment"

/-- The generic failure reply of the `/sms` handler (`routes.py` line 157). -/
def serviceUnavailableMsg : String :=
  "Sorry, service unavailable. Please call your clinic or 1195."

/-- The `/sms` webhook handler `receive_sms` (`routes.py` lines 130-159) under
the actual bindings: the whole body is wrapped in try/except; its first
statement is already a `log_metric` call, and on any exception the generic
failure message is sent by SMS and an error status is returned. -/
def receive_sms_strict (u : StoredUser) (phone text : String) : List Effect × String :=
  let tryBody : Except String String := do
    let _ ← undefinedName "log_metric"  -- await log_metric("message_received")
    let r ← process_message_strict u phone text
    pure r
  match tryBody with
  | Except.ok r => ([Effect.sms phone r, Effect.metric "message_sent"], "success")
  | Except.error _ => ([Effect.sms phone serviceUnavailableMsg], "error")

/-! ## ai_service.py: _call_ai_api

The completion service is a black box: a call with one model identifier
either yields content, or fails `raise_for_status` with an HTTP status code,
or raises some other exception (network error, malformed response body). -/

/-- The outcome of one completion-service request for one model identifier. -/
inductive ApiResult where
  | ok (content : String)
  | httpStatus (code : Nat)
  | exn
deriving DecidableEq, Repr

/-- The fixed safe fallback reply of `_call_ai_api` (`ai_service.py` lines 196-204). -/
def apiFallbackMsg : String := "Sorry, technical issue. Call your clinic or 1195 now."

/-- The ordered model list of `_call_ai_api` (`ai_service.py` line 161). -/
def models_to_try : List String := ["grok-4.1-fast", "grok-4"]

/-- Successful-content formatting of `_call_ai_api` (`ai_service.py` lines
188-192): plain calls get the first 100 characters of the disclaimer appended. -/
def formatApiContent (use_risk_scoring : Bool) (disclaimer content : String) : String :=
  if use_risk_scoring then content else content ++ " " ++ pyTake 100 disclaimer

/-- The model loop of `_call_ai_api` (`ai_service.py` lines 163-202): on a 404
for a model other than `models_to_try[-1]`, continue with the next model; on
any other error return the fixed fallback string; past the end of the list
return the fallback as well. -/
def callApiLoop (api : String → ApiResult) (use_risk_scoring : Bool)
    (disclaimer lastModel : String) : List String → String
  | [] => apiFallbackMsg
  | m :: rest =>
      match api m with
      | ApiResult.ok c => formatApiContent use_risk_scoring disclaimer c
      | ApiResult.httpStatus code =>
          if code = 404 ∧ m ≠ lastModel then
            callApiLoop api use_risk_scoring disclaimer lastModel rest
          else apiFallbackMsg
      | ApiResult.exn => apiFallbackMsg

/-- `_call_ai_api(messages, use_risk_scoring)` (`ai_service.py` lines 149-204),
parametrised by the completion-service behaviour `api`. -/
def call_ai_api (api : String → ApiResult) (use_risk_scoring : Bool)
    (disclaimer : String) : String :=
  callApiLoop api use_risk_scoring disclaimer (models_to_try.getLastD "") models_to_try

/-! ## ai_service.py: get_ai_risk_assessment

`json.loads` is modelled by an executable JSON parser over the character
list: objects, arrays, strings with the standard escapes, numbers, `true`,
`false` and `null`.  Numeric lexemes are kept verbatim (no claim inspects a
parsed numeric value), and `\uXXXX` escapes are mapped through `Char.ofNat`
without surrogate-pair combination. -/

/-- A parsed JSON value. -/
inductive Json where
  | null
  | bool (b : Bool)
  | num (lexeme : String)
  | str (s : String)
  | arr (elems : List Json)
  | obj (members : List (String × Json))

/-- JSON insignificant whitespace. -/
def isJsonWs (c : Char) : Bool :=
  c = ' ' || c = '\t' || c = '\n' || c = '\r'

/-- Drop leading JSON whitespace. -/
def skipWs : List Char → List Char
  | [] => []
  | c :: cs => if isJsonWs c then skipWs cs else c :: cs

/-- Value of one hexadecimal digit. -/
def hexVal (c : Char) : Option Nat :=
  if '0' ≤ c ∧ c ≤ '9' then some (c.toNat - '0'.toNat)
  else if 'a' ≤ c ∧ c ≤ 'f' then some (c.toNat - 'a'.toNat + 10)
  else if 'A' ≤ c ∧ c ≤ 'F' then some (c.toNat - 'A'.toNat + 10)
  else none

/-- Parse the body of a JSON string after the opening quote; returns the
decoded characters and the rest of the input after the closing quote.
Unescaped control characters are rejected, as by `json.loads`. -/
def parseStringBody : List Char → Option (List Char × List Char)
  | [] => none
  | '"' :: rest => some ([], rest)
  | '\\' :: 'u' :: h1 :: h2 :: h3 :: h4 :: rest => do
      let v1 ← hexVal h1
      let v2 ← hexVal h2
      let v3 ← hexVal h3
      let v4 ← hexVal h4
      let (s, r) ← parseStringBody rest
      pure (Char.ofNat (((v1 * 16 + v2) * 16 + v3) * 16 + v4) :: s, r)
  | '\\' :: e :: rest => do
      let c ← (match e with
        | '"' => some '"'
        | '\\' => some '\\'
        | '/' => some '/'
        | 'b' => some (Char.ofNat 8)
        | 'f' => some (Char.ofNat 12)
        | 'n' => some '\n'
        | 'r' => some '\r'
        | 't' => some '\t'
        | _ => none)
      let (s, r) ← parseStringBody rest
      pure (c :: s, r)
  | c :: rest =>
      if c.toNat < 32 then none
      else do
        let (s, r) ← parseStringBody rest
        pure (c :: s, r)

/-- Parse a JSON number lexeme: optional minus, integer part without leading
zeros, optional fraction, optional exponent. -/
def parseNumberLex (l : List Char) : Option (List Char × List Char) := do
  let (neg, l1) : List Char × List Char :=
    match l with
    | '-' :: rest => (['-'], rest)
    | _ => ([], l)
  let (ip, l2) ← (match l1 with
    | '0' :: rest => some (['0'], rest)
    | c :: rest =>
        if c.isDigit then
          some (c :: rest.takeWhile (fun d => d.isDigit), rest.dropWhile (fun d => d.isDigit))
        else none
    | [] => none)
  let (fp, l3) : List Char × List Char :=
    match l2 with
    | '.' :: rest =>
        let ds := rest.takeWhile (fun d => d.isDigit)
        if ds = [] then ([], l2)
        else ('.' :: ds, rest.dropWhile (fun d => d.isDigit))
    | _ => ([], l2)
  -- a '.' not followed by a digit is a parse error
  match l2, fp with
  | '.' :: _, [] => none
  | _, _ =>
    match l3 with
    | e :: rest =>
        if e = 'e' ∨ e = 'E' then
          let (sgn, r2) : List Char × List Char :=
            match rest with
            | '+' :: r => (['+'], r)
            | '-' :: r => (['-'], r)
            | _ => ([], rest)
          let ds := r2.takeWhile (fun d => d.isDigit)
          if ds = [] then none
          else some (neg ++ ip ++ fp ++ e :: sgn ++ ds, r2.dropWhile (fun d => d.isDigit))
        else some (neg ++ ip ++ fp, l3)
    | [] => some (neg ++ ip ++ fp, [])

mutual

/-- Parse one JSON value; `fuel` bounds the recursion depth. -/
def parseValue : Nat → List Char → Option (Json × List Char)
  | 0, _ => none
  | Nat.succ fuel, l =>
      match skipWs l with
      | '{' :: rest =>
          (match skipWs rest with
           | '}' :: r => some (Json.obj [], r)
           | _ => do
               let (ms, r) ← parseMembers fuel rest
               pure (Json.obj ms, r))
      | '[' :: rest =>
          (match skipWs rest with
           | ']' :: r => some (Json.arr [], r)
           | _ => do
               let (es, r) ← parseElements fuel rest
               pure (Json.arr es, r))
      | '"' :: rest => do
          let (s, r) ← parseStringBody rest
          pure (Json.str (String.mk s), r)
      | 't' :: 'r' :: 'u' :: 'e' :: r => some (Json.bool true, r)
      | 'f' :: 'a' :: 'l' :: 's' :: 'e' :: r => some (Json.bool false, r)
      | 'n' :: 'u' :: 'l' :: 'l' :: r => some (Json.null, r)
      | l' => do
          let (lex, r) ← parseNumberLex l'
          pure (Json.num (String.mk lex), r)

/-- Parse the members of a JSON object after the opening brace. -/
def parseMembers : Nat → List Char → Option (List (String × Json) × List Char)
  | 0, _ => none
  | Nat.succ fuel, l => do
      let (k, r1) ← (match skipWs l with
        | '"' :: rest => parseStringBody rest
        | _ => none)
      match skipWs r1 with
      | ':' :: r2 => do
          let (v, r3) ← parseValue fuel r2
          (match skipWs r3 with
           | ',' :: r4 => do
               let (ms, r5) ← parseMembers fuel r4
               pure ((String.mk k, v) :: ms, r5)
           | '}' :: r4 => pure ([(String.mk k, v)], r4)
           | _ => none)
      | _ => none

/-- Parse the elements of a JSON array after the opening bracket. -/
def parseElements : Nat → List Char → Option (List Json × List Char)
  | 0, _ => none
  | Nat.succ fuel, l => do
      let (v, r1) ← parseValue fuel l
      match skipWs r1 with
      | ',' :: r2 => do
          let (es, r3) ← parseElements fuel r2
          pure (v :: es, r3)
      | ']' :: r2 => pure ([v], r2)
      | _ => none

end

/-- `json.loads(s)`: parse one JSON document with no trailing content.
The fuel `s.length + 1` dominates the recursion depth, since every nested
parse consumes at least one character first. -/
def json_loads (s : String) : Option Json :=
  match parseValue (s.data.length + 1) s.data with
  | some (v, rest) => if skipWs rest = [] then some v else none
  | none => none

/-- The substring from the first `{` to the last `}` extracted by
`get_ai_risk_assessment` (`ai_service.py` lines 119-125), with Python's
`find`/`rfind`/slice semantics (including the `-1` results when a brace is
absent, as happens on the markdown branch). -/
def extractJson (raw : String) : String :=
  pySlice raw (pyFind raw '{') (pyRfind raw '}' + 1)

/-- The default result when the completion contains no JSON-like content
(`ai_service.py` lines 128-133). -/
def standardResult (raw : String) : Json :=
  Json.obj [("response_text", Json.str raw), ("risk_level", Json.num "0.3"),
            ("reason", Json.str "Standard advice"),
            ("recommended_action", Json.str "monitor")]

/-- The fallback result of the except-branch (`ai_service.py` lines 140-146);
`plain` is the output of the plain (non-structured) completion call. -/
def parseErrorResult (plain : String) : Json :=
  Json.obj [("response_text", Json.str plain), ("risk_level", Json.num "0.3"),
            ("reason", Json.str "Parsing error - manual review recommended"),
            ("recommended_action", Json.str "monitor")]

/-- The three keys required by the validation step (`ai_service.py` line 138). -/
def requiredKeys : List String := ["response_text", "risk_level", "recommended_action"]

/-- Python `key in value` on a decoded JSON value: key membership for a dict,
element equality for a list, substring test for a string, and `none`
(a `TypeError`) for the other types. -/
def pyIn (key : String) : Json → Option Bool
  | Json.obj ms => some (ms.any (fun m => m.1 = key))
  | Json.arr es => some (es.any (fun e => match e with | Json.str s => s = key | _ => false))
  | Json.str s => some (containsS s key)
  | _ => none

/-- Python `all(key in rd for key in keys)` with its short-circuit and
exception behaviour. -/
def pyAllKeys : List String → Json → Option Bool
  | [], _ => some true
  | k :: rest, rd =>
      match pyIn k rd with
      | none => none
      | some false => some false
      | some true => pyAllKeys rest rd

/-- The parse-and-validate step of `get_ai_risk_assessment` (`ai_service.py`
lines 135-146): a failed parse, a failed `all(...)` check (the raised
`ValueError`), or a `TypeError` from a non-container value all fall into the
except-branch fallback. -/
def validateAndReturn (plain ext : String) : Json :=
  match json_loads ext with
  | some rd =>
      (match pyAllKeys requiredKeys rd with
       | some true => rd
       | _ => parseErrorResult plain)
  | none => parseErrorResult plain

/-- `get_ai_risk_assessment` (`ai_service.py` lines 109-146) as a function of
the structured completion output `raw` and the plain completion output
`plain` used by the fallback branch. -/
def get_ai_risk_assessment (plain raw : String) : Json :=
  if containsS raw "```json" then validateAndReturn plain (extractJson raw)
  else if raw.data.contains '{' && raw.data.contains '}' then
    validateAndReturn plain (extractJson raw)
  else standardResult raw

/-- The keys of a decoded JSON object (empty for non-objects). -/
def jsonKeys : Json → List String
  | Json.obj ms => ms.map (fun m => m.1)
  | _ => []

/-! # Theorems -/

/-! ## Supporting lemmas about append_history -/

lemma appendEntry_length_le (h : List HistEntry) (e : HistEntry) :
    (appendEntry h e).length ≤ 10 := by
  simp only [appendEntry, append_history, List.length_drop]
  omega

lemma appendEntry_suffix (h : List HistEntry) (e : HistEntry) :
    appendEntry h e <:+ h ++ [e] := by
  simpa only [appendEntry, append_history] using
    List.drop_suffix _ (h ++ [HistEntry.mk e.role e.content])

lemma appendEntry_ne_nil (h : List HistEntry) (e : HistEntry) :
    appendEntry h e ≠ [] := by
  have : (appendEntry h e).length ≠ 0 := by
    simp only [appendEntry, append_history, List.length_drop, List.length_append,
      List.length_cons, List.length_nil]
    omega
  intro hnil
  simp [hnil] at this

lemma suffix_append_right {α : Type} {s t : List α} (r : List α) (h : s <:+ t) :
    s ++ r <:+ t ++ r := by
  obtain ⟨w, hw⟩ := h
  exact ⟨w, by rw [← hw, List.append_assoc]⟩

lemma foldl_appendEntry_suffix (ops : List HistEntry) (h0 : List HistEntry) :
    ops.foldl appendEntry h0 <:+ h0 ++ ops := by
  induction ops generalizing h0 with
  | nil => simp
  | cons o rest ih =>
      have h1 : rest.foldl appendEntry (appendEntry h0 o) <:+ appendEntry h0 o ++ rest := ih _
      have h2 : appendEntry h0 o ++ rest <:+ (h0 ++ [o]) ++ rest :=
        suffix_append_right rest (appendEntry_suffix h0 o)
      have h3 := h1.trans h2
      simpa [List.append_assoc] using h3

lemma suffix_getLast? {α : Type} {s t : List α} (h : s <:+ t) (hne : s ≠ []) :
    s.getLast? = t.getLast? := by
  obtain ⟨w, hw⟩ := h
  rw [← hw]
  exact (List.getLast?_append_of_ne_nil w hne).symm

/-! ## C6 -/

/-- C6: for every user record and every sequence of `append_history`
operations, the stored conversation history has length at most 10 after any
append, eviction is FIFO (the result is a suffix of the uncapped
concatenation, so only the oldest entries are removed and relative order is
preserved), and the most recent entry is last.  Every intermediate state of
a longer sequence is an instance, since the initial history `h0` and the
earlier operations `ops` are arbitrary. -/
theorem c6_history_bound (h0 ops : List HistEntry) (e : HistEntry) :
    (((ops ++ [e]).foldl appendEntry h0).length ≤ 10) ∧
    ((ops ++ [e]).foldl appendEntry h0 <:+ h0 ++ ops ++ [e]) ∧
    (((ops ++ [e]).foldl appendEntry h0).getLast? = some e) := by
  have hfold : (ops ++ [e]).foldl appendEntry h0 = appendEntry (ops.foldl appendEntry h0) e := by
    simp [List.foldl_append]
  refine ⟨?_, ?_, ?_⟩
  · rw [hfold]
    exact appendEntry_length_le _ _
  · rw [hfold]
    have h1 := appendEntry_suffix (ops.foldl appendEntry h0) e
    have h2 := suffix_append_right [e] (foldl_appendEntry_suffix ops h0)
    exact h1.trans (by simpa [List.append_assoc] using h2)
  · rw [hfold]
    have h1 := appendEntry_suffix (ops.foldl appendEntry h0) e
    have hne := appendEntry_ne_nil (ops.foldl appendEntry h0) e
    rw [suffix_getLast? h1 hne]
    simp

/-! ## C5 -/

/-- C5: `_call_ai_api` attempts the ordered model list
`["grok-4.1-fast", "grok-4"]`; on a 404 for the first (non-last) model it
retries with the next identifier; on any other error, or when the last model
also fails, it returns the fixed safe string as the response text itself.
The function is total, so no exception reaches the caller. -/
theorem c5_model_fallback (api : String → ApiResult) (use_risk_scoring : Bool)
    (disclaimer : String) :
    call_ai_api api use_risk_scoring disclaimer =
      (match api "grok-4.1-fast" with
       | ApiResult.ok c => formatApiContent use_risk_scoring disclaimer c
       | ApiResult.httpStatus code =>
           if code = 404 then
             (match api "grok-4" with
              | ApiResult.ok c => formatApiContent use_risk_scoring disclaimer c
              | _ => apiFallbackMsg)
           else apiFallbackMsg
       | ApiResult.exn => apiFallbackMsg) := by
  unfold call_ai_api models_to_try
  cases h1 : api "grok-4.1-fast" with
  | ok c => simp [callApiLoop, h1]
  | exn => simp [callApiLoop, h1]
  | httpStatus code =>
      by_cases hc : code = 404
      · subst hc
        cases h2 : api "grok-4" with
        | ok c => simp [callApiLoop, h1, h2]
        | exn => simp [callApiLoop, h1, h2]
        | httpStatus code2 => simp [callApiLoop, h1, h2]
      · simp [callApiLoop, h1, hc]

/-! ## C2 -/

/-- C2: `log_metric` is not among the names `database.py` defines, and
`get_grok_risk_assessment` is defined by no module of the repository, so
under the actual bindings every branch of `process_message` raises before
returning, and the `/sms` handler's top-level try/except always sends the
generic "Sorry, service unavailable. Please call your clinic or 1195."
reply. -/
theorem c2_unresolved_names :
    ("log_metric" ∉ databaseModuleDefs) ∧
    ("get_grok_risk_assessment" ∉ repoDefinedNames) ∧
    (∀ (u : StoredUser) (phone text : String),
      (∃ e, process_message_strict u phone text = Except.error e) ∧
      receive_sms_strict u phone text =
        ([Effect.sms phone serviceUnavailableMsg], "error")) := by
  refine ⟨by decide, by decide, fun u phone text => ⟨?_, rfl⟩⟩
  unfold process_message_strict undefinedName
  dsimp only
  repeat' split
  all_goals exact ⟨_, rfl⟩

/-! ## C3 -/

lemma foldl_update_unmapped (kwargs : List (String × ColVal))
    (hk : ∀ kv ∈ kwargs, kv.1 = "is_tea_farm_worker" ∨ kv.1 = "interaction_count") :
    ∀ (u : StoredUser) (acc : List (String × ColVal)),
      (kwargs.foldl
        (fun st kv =>
          if kv.1 ∈ userColumns then (setattrColumn st.1 kv.1 kv.2, st.2)
          else (st.1, st.2 ++ [kv]))
        (u, acc)).1 = u := by
  induction kwargs with
  | nil => intro u acc; rfl
  | cons kv rest ih =>
      intro u acc
      have hkv := hk kv (by simp)
      have hnot : kv.1 ∉ userColumns := by
        rcases hkv with h1 | h1 <;> rw [h1] <;> decide
      have hrest : ∀ kv ∈ rest, kv.1 = "is_tea_farm_worker" ∨ kv.1 = "interaction_count" :=
        fun kv hm => hk kv (List.mem_cons_of_mem _ hm)
      simp only [List.foldl_cons, if_neg hnot]
      exact ih hrest u (acc ++ [kv])

lemma storedAfterUpdate_unmapped (u : StoredUser) (kwargs : List (String × ColVal))
    (hk : ∀ kv ∈ kwargs, kv.1 = "is_tea_farm_worker" ∨ kv.1 = "interaction_count") :
    storedAfterUpdate u kwargs = u :=
  foldl_update_unmapped kwargs hk u []

/-- C3: the stored `User` schema has no `interaction_count` and no
`is_tea_farm_worker` column; reading either attribute from a stored record
resolves to nothing, and an `update_user` call touching only those names
leaves the persisted record unchanged — the flag and count are never
persisted as user state. -/
theorem c3_unmapped_fields :
    ("is_tea_farm_worker" ∉ userColumns) ∧
    ("interaction_count" ∉ userColumns) ∧
    (∀ u : StoredUser,
      readAttr u "is_tea_farm_worker" = none ∧ readAttr u "interaction_count" = none) ∧
    (∀ (u : StoredUser) (kwargs : List (String × ColVal)),
      (∀ kv ∈ kwargs, kv.1 = "is_tea_farm_worker" ∨ kv.1 = "interaction_count") →
      storedAfterUpdate u kwargs = u) := by
  exact ⟨by decide, by decide, fun u => ⟨rfl, rfl⟩, storedAfterUpdate_unmapped⟩

/-- Witness for C3: a concrete `update_user(.., is_tea_farm_worker=1,
interaction_count=3)` leaves the stored row untouched. -/
theorem c3_witness :
    storedAfterUpdate ⟨0, "h", none, none, none, 0, []⟩
      [("is_tea_farm_worker", ColVal.vint 1), ("interaction_count", ColVal.vint 3)] =
      ⟨0, "h", none, none, none, 0, []⟩ :=
  c3_unmapped_fields.2.2.2 _ _ (by decide)

/-! ## C1 -/

lemma infix_append_left {n a : List Char} (b : List Char) (h : n <:+: a) :
    n <:+: a ++ b := by
  obtain ⟨s, t, hst⟩ := h
  exact ⟨s, t ++ b, by rw [← hst]; simp [List.append_assoc]⟩

lemma detect_pos {text language disclaimer : String}
    (h : ∃ kw ∈ keywordsFor language, containsS (pyLower text) kw = true) :
    detect_danger_signs text language disclaimer = (true, some (dangerWarning disclaimer)) := by
  unfold detect_danger_signs
  dsimp only
  cases hf : (keywordsFor language).find? (fun kw => containsS (pyLower text) kw) with
  | some kw => rfl
  | none =>
      obtain ⟨kw, hm, hc⟩ := h
      have hnone := List.find?_eq_none.mp hf kw hm
      simp [hc] at hnone

lemma detect_neg {text language disclaimer : String}
    (h : ¬ ∃ kw ∈ keywordsFor language, containsS (pyLower text) kw = true) :
    detect_danger_signs text language disclaimer = (false, none) := by
  unfold detect_danger_signs
  dsimp only
  have hf : (keywordsFor language).find? (fun kw => containsS (pyLower text) kw) = none := by
    rw [List.find?_eq_none]
    intro kw hm hc
    exact h ⟨kw, hm, hc⟩
  rw [hf]

lemma detect_eq_of_fst {text language disclaimer : String}
    (h : (detect_danger_signs text language disclaimer).1 = true) :
    detect_danger_signs text language disclaimer = (true, some (dangerWarning disclaimer)) := by
  unfold detect_danger_signs at h ⊢
  dsimp only at h ⊢
  cases hf : (keywordsFor language).find? (fun kw => containsS (pyLower text) kw) with
  | some kw => rfl
  | none => rw [hf] at h; simp at h

lemma classify_danger_detect {text language disclaimer : String}
    (h : classify text language disclaimer = Branch.danger) :
    (detect_danger_signs text language disclaimer).1 = true := by
  unfold classify at h
  dsimp only at h
  split at h
  · exact absurd h (by decide)
  split at h
  · exact absurd h (by decide)
  split at h
  · exact absurd h (by decide)
  split at h
  · exact absurd h (by decide)
  split at h
  · assumption
  · exact absurd h (by decide)

/-- C1: a text containing a danger keyword of the user's language list
(case-insensitive substring match) makes `detect_danger_signs` return
`(True, warning)` where the warning carries the emergency number 1195 and
the configured disclaimer; a text with no keyword yields `(False, None)`;
and when the orchestrator takes the danger branch it returns exactly that
fixed warning and its effect trace contains no completion-service call. -/
theorem c1_danger_fastpath :
    (∀ text language disclaimer : String,
      (∃ kw ∈ keywordsFor language, containsS (pyLower text) kw = true) →
        detect_danger_signs text language disclaimer =
          (true, some (dangerWarning disclaimer)) ∧
        containsS (dangerWarning disclaimer) "1195" = true ∧
        containsS (dangerWarning disclaimer) disclaimer = true) ∧
    (∀ text language disclaimer : String,
      (¬ ∃ kw ∈ keywordsFor language, containsS (pyLower text) kw = true) →
        detect_danger_signs text language disclaimer = (false, none)) ∧
    (∀ (st : AppSettings) (risk : RiskResult) (u : UserRec) (phone text : String),
      classify text (u.language.getD "en") st.SMS_DISCLAIMER = Branch.danger →
        (process_message st risk u phone text).1 = dangerWarning st.SMS_DISCLAIMER ∧
        Effect.completion ∉ (process_message st risk u phone text).2.1) := by
  refine ⟨fun text language disclaimer h => ⟨detect_pos h, ?_, ?_⟩,
    fun text language disclaimer h => detect_neg h,
    fun st risk u phone text hcl => ?_⟩
  · show decide _ = true
    rw [decide_eq_true_eq]
    have h1195 : ("1195").data <:+:
        ("Danger sign detected! Go to clinic NOW or call 1195. ").data := by decide
    have := infix_append_left (b := disclaimer.data) h1195
    simpa [dangerWarning, String.data_append] using this
  · show decide _ = true
    rw [decide_eq_true_eq]
    refine ⟨("Danger sign detected! Go to clinic NOW or call 1195. ").data, [], ?_⟩
    simp [dangerWarning, String.data_append]
  · have hdet := classify_danger_detect hcl
    have hdeq := detect_eq_of_fst hdet
    constructor
    · unfold process_message
      dsimp only
      rw [hcl]
      dsimp only
      rw [hdeq]
      rfl
    · unfold process_message
      dsimp only
      rw [hcl]
      dsimp only
      simp only [log_metric, chwAlertEffects]
      split
      all_goals simp

/-- Witness for C1: the English text "i have bleeding" trips the detector,
yields the fixed warning, and the orchestrator answers it without any
completion-service call. -/
theorem c1_witness :
    detect_danger_signs "i have bleeding" "en" "D" = (true, some (dangerWarning "D")) ∧
    (process_message ⟨"D", "chw", "", ""⟩ ⟨"x", 0, "r", "monitor"⟩
        ⟨none, none, false, 0, []⟩ "p" "i have bleeding").1 = dangerWarning "D" ∧
    Effect.completion ∉ (process_message ⟨"D", "chw", "", ""⟩ ⟨"x", 0, "r", "monitor"⟩
        ⟨none, none, false, 0, []⟩ "p" "i have bleeding").2.1 :=
  ⟨(c1_danger_fastpath.1 "i have bleeding" "en" "D" (by decide)).1,
   (c1_danger_fastpath.2.2 ⟨"D", "chw", "", ""⟩ ⟨"x", 0, "r", "monitor"⟩
      ⟨none, none, false, 0, []⟩ "p" "i have bleeding" (by decide)).1,
   (c1_danger_fastpath.2.2 ⟨"D", "chw", "", ""⟩ ⟨"x", 0, "r", "monitor"⟩
      ⟨none, none, false, 0, []⟩ "p" "i have bleeding" (by decide)).2⟩

/-! ## C7 -/

lemma classify_tu_Y {text : String} (language disclaimer : String)
    (h : pyUpper (pyStrip text) = "Y") :
    classify text language disclaimer = Branch.ancYes := by
  unfold classify
  rw [h]
  rfl

lemma classify_tu_N {text : String} (language disclaimer : String)
    (h : pyUpper (pyStrip text) = "N") :
    classify text language disclaimer = Branch.ancNo := by
  unfold classify
  rw [h]
  rfl

lemma classify_tu_YES {text : String} (language disclaimer : String)
    (h : pyUpper (pyStrip text) = "YES") :
    classify text language disclaimer = Branch.feedback := by
  unfold classify
  rw [h]
  rfl

lemma classify_tu_NO {text : String} (language disclaimer : String)
    (h : pyUpper (pyStrip text) = "NO") :
    classify text language disclaimer = Branch.feedback := by
  unfold classify
  rw [h]
  rfl

/-- Counterexample for C7: the inbound text "YES" (trimmed uppercase form
exactly YES) does not reach the ANC-poll branch — the earlier feedback
branch intercepts it, because a short text containing "YES" matches the
feedback guard — so the reply is the feedback thank-you, not the ANC
positive reinforcement. -/
theorem c7_counterexample :
    classify "YES" "en" "D" = Branch.feedback ∧
    (process_message ⟨"D", "chw", "", ""⟩ ⟨"x", 0, "r", "monitor"⟩
        ⟨none, none, false, 0, []⟩ "p" "YES").1 =
      "Thank you for your feedback! It helps us improve MamaShield for all mamas." ∧
    (process_message ⟨"D", "chw", "", ""⟩ ⟨"x", 0, "r", "monitor"⟩
        ⟨none, none, false, 0, []⟩ "p" "YES").1 ≠
      "Great! Keep attending your ANC visits. Your health matters!" := by
  refine ⟨by decide, rfl, by decide⟩

/-- C7 (amended): only the texts whose trimmed uppercase form is exactly Y
or N reach the ANC-poll branch: on Y the orchestrator sends the ANC
thank-you notification (plus farm-engagement tracking when the user is a
tea-farm worker) and returns the positive-reinforcement reply; on N it
returns the clinic reminder; both branches are terminal (no completion
call, state unchanged).  YES and NO are intercepted by the earlier feedback
branch and get the feedback thank-you instead. -/
theorem c7_anc_branch_amended (st : AppSettings) (risk : RiskResult) (u : UserRec)
    (phone text : String) :
    (pyUpper (pyStrip text) = "Y" →
      process_message st risk u phone text =
        ("Great! Keep attending your ANC visits. Your health matters!",
          log_metric "anc_poll_yes" ++ ancThankYouEffects phone (u.language.getD "en") ++
            (if u.is_tea_farm_worker then trackFarmEngagementEffects else []), u)) ∧
    (pyUpper (pyStrip text) = "N" →
      process_message st risk u phone text =
        ("Please visit your clinic soon for ANC checkup. It's important for you and baby.",
          log_metric "anc_poll_no", u)) ∧
    (pyUpper (pyStrip text) = "YES" ∨ pyUpper (pyStrip text) = "NO" →
      (process_message st risk u phone text).1 =
        "Thank you for your feedback! It helps us improve MamaShield for all mamas.") := by
  refine ⟨fun h => ?_, fun h => ?_, fun h => ?_⟩
  · unfold process_message
    dsimp only
    rw [classify_tu_Y (u.language.getD "en") st.SMS_DISCLAIMER h]
  · unfold process_message
    dsimp only
    rw [classify_tu_N (u.language.getD "en") st.SMS_DISCLAIMER h]
  · unfold process_message
    dsimp only
    rcases h with h | h
    · rw [classify_tu_YES (u.language.getD "en") st.SMS_DISCLAIMER h]
    · rw [classify_tu_NO (u.language.getD "en") st.SMS_DISCLAIMER h]

/-- Witness for C7 (amended): the concrete texts " y " and "N" take the two
ANC branches, and "NO" lands in the feedback branch. -/
theorem c7_witness :
    process_message ⟨"D", "chw", "", ""⟩ ⟨"x", 0, "r", "monitor"⟩
        ⟨none, none, true, 0, []⟩ "p" " y " =
      ("Great! Keep attending your ANC visits. Your health matters!",
        log_metric "anc_poll_yes" ++ ancThankYouEffects "p" "en" ++
          trackFarmEngagementEffects, ⟨none, none, true, 0, []⟩) ∧
    process_message ⟨"D", "chw", "", ""⟩ ⟨"x", 0, "r", "monitor"⟩
        ⟨none, none, false, 0, []⟩ "p" "N" =
      ("Please visit your clinic soon for ANC checkup. It's important for you and baby.",
        log_metric "anc_poll_no", ⟨none, none, false, 0, []⟩) ∧
    (process_message ⟨"D", "chw", "", ""⟩ ⟨"x", 0, "r", "monitor"⟩
        ⟨none, none, false, 0, []⟩ "p" "NO").1 =
      "Thank you for your feedback! It helps us improve MamaShield for all mamas." := by
  refine ⟨?_, ?_, ?_⟩
  · have h := (c7_anc_branch_amended ⟨"D", "chw", "", ""⟩ ⟨"x", 0, "r", "monitor"⟩
      ⟨none, none, true, 0, []⟩ "p" " y ").1 (by decide)
    simpa using h
  · exact (c7_anc_branch_amended ⟨"D", "chw", "", ""⟩ ⟨"x", 0, "r", "monitor"⟩
      ⟨none, none, false, 0, []⟩ "p" "N").2.1 (by decide)
  · exact (c7_anc_branch_amended ⟨"D", "chw", "", ""⟩ ⟨"x", 0, "r", "monitor"⟩
      ⟨none, none, false, 0, []⟩ "p" "NO").2.2 (Or.inr (by decide))

/-! ## C8 and C9: the general-query branch -/

lemma riskHandling_fst (st : AppSettings) (risk : RiskResult) (b : Bool)
    (phone text : String) :
    (riskHandling st risk b phone text).1 =
      (if risk.risk_level > 6/10 ∧
          (risk.recommended_action = "emergency" ∨ risk.risk_level > 8/10)
       then "URGENT: " ++ risk.response_text ++ " Call 1195 or go to clinic NOW."
       else risk.response_text) := by
  unfold riskHandling
  by_cases h6 : risk.risk_level > 6/10
  · by_cases hem : risk.recommended_action = "emergency" ∨ risk.risk_level > 8/10
    · simp [h6, hem]
    · simp [h6, hem]
  · have hcon : ¬ (risk.risk_level > 6/10 ∧
        (risk.recommended_action = "emergency" ∨ risk.risk_level > 8/10)) :=
      fun hc => h6 hc.1
    simp [h6, hcon]

lemma feedback_metric_not_in_riskHandling (st : AppSettings) (risk : RiskResult)
    (b : Bool) (phone text : String) :
    Effect.metric "feedback_poll_sent" ∉ (riskHandling st risk b phone text).2 := by
  unfold riskHandling
  by_cases h6 : risk.risk_level > 6/10
  · simp only [h6, if_pos]
    simp [chwAlertEffects, log_metric]
  · simp [h6]

/-- C8: in the general-query branch the cadence rules fire on the
incremented interaction count exactly as stated: count 1 appends the
tea-farm invitation; otherwise a multiple of 5 appends the feedback poll
(with a metric) and suppresses the ANC poll; otherwise a multiple of 4
appends the ANC poll; and independently a tea-farm worker at a multiple of
3 also gets the truncated farm tip.  (Count 1 is never a multiple of 5 or
4, so the stated priority is exactly the code's behaviour.) -/
theorem c8_cadence (st : AppSettings) (risk : RiskResult) (u : UserRec)
    (phone text : String)
    (h : classify text (u.language.getD "en") st.SMS_DISCLAIMER = Branch.general) :
    ((process_message st risk u phone text).1 =
      (riskHandling st risk u.is_tea_farm_worker phone text).1 ++
        ((if u.interaction_count + 1 = 1 then
            " Reply TEA if you work/pick tea - get special tips for farm moms." else "") ++
         (if (u.interaction_count + 1) % 5 = 0 then " Was our advice helpful? Reply YES or NO."
          else if (u.interaction_count + 1) % 4 = 0 then
            " Did you attend ANC this month? Reply Y for yes, N for no."
          else "") ++
         (if u.is_tea_farm_worker ∧ (u.interaction_count + 1) % 3 = 0 then
            " Farm tip: " ++ pyTake 80 (get_farm_specific_tips "picking" (u.language.getD "en")) ++ "..."
          else ""))) ∧
    (Effect.metric "feedback_poll_sent" ∈ (process_message st risk u phone text).2.1 ↔
      (u.interaction_count + 1) % 5 = 0) := by
  constructor
  · unfold process_message
    dsimp only
    rw [h]
    rfl
  · unfold process_message
    dsimp only
    rw [h]
    have hnot := feedback_metric_not_in_riskHandling st risk u.is_tea_farm_worker phone text
    by_cases h5 : (u.interaction_count + 1) % 5 = 0
    · simp [cadenceEffects, log_metric, h5]
    · simp [cadenceEffects, log_metric, h5, hnot]

/-- Witness for C8: a user at stored count 4 (incremented count 5) gets the
feedback poll appended and the metric emitted, and no ANC poll. -/
theorem c8_witness :
    (process_message ⟨"D", "chw", "", ""⟩ ⟨"Ok.", 0, "r", "monitor"⟩
        ⟨none, none, false, 4, []⟩ "p" "hello").1 =
      "Ok. Was our advice helpful? Reply YES or NO." ∧
    Effect.metric "feedback_poll_sent" ∈
      (process_message ⟨"D", "chw", "", ""⟩ ⟨"Ok.", 0, "r", "monitor"⟩
        ⟨none, none, false, 4, []⟩ "p" "hello").2.1 := by
  have hc := c8_cadence ⟨"D", "chw", "", ""⟩ ⟨"Ok.", 0, "r", "monitor"⟩
    ⟨none, none, false, 4, []⟩ "p" "hello" (by decide)
  refine ⟨?_, hc.2.mpr (by decide)⟩
  rw [hc.1, riskHandling_fst]
  rw [if_neg ?hneg]
  case hneg =>
    rintro ⟨h6, -⟩
    exact absurd h6 (by norm_num : ¬ ((0 : ℚ) > 6/10))
  rfl

/-- Counterexample for C9: a risk result with `recommended_action =
"emergency"` but `risk_level = 0.3` gets no urgent call-to-action prepended
(and no CHW alert), because the urgent rewrite is nested inside the
`risk_level > 0.6` case — contradicting the claim's unconditional
"risk_level > 0.8 or recommended_action equals emergency" disjunction. -/
theorem c9_counterexample :
    (⟨"Rest well.", 3/10, "r", "emergency"⟩ : RiskResult).recommended_action =
      "emergency" ∧
    (process_message ⟨"D", "chw", "", ""⟩ ⟨"Rest well.", 3/10, "r", "emergency"⟩
        ⟨none, none, false, 1, []⟩ "p" "hello").1 = "Rest well." ∧
    containsS (process_message ⟨"D", "chw", "", ""⟩ ⟨"Rest well.", 3/10, "r", "emergency"⟩
        ⟨none, none, false, 1, []⟩ "p" "hello").1 "URGENT" = false := by
  have h2 : (process_message ⟨"D", "chw", "", ""⟩ ⟨"Rest well.", 3/10, "r", "emergency"⟩
      ⟨none, none, false, 1, []⟩ "p" "hello").1 = "Rest well." := by
    unfold process_message
    dsimp only
    rw [show classify "hello" (((⟨none, none, false, 1, []⟩ : UserRec).language).getD "en")
        (⟨"D", "chw", "", ""⟩ : AppSettings).SMS_DISCLAIMER = Branch.general by decide]
    dsimp only
    rw [riskHandling_fst]
    rw [if_neg ?hneg]
    case hneg =>
      rintro ⟨h6, -⟩
      exact absurd h6 (by norm_num : ¬ ((3 : ℚ)/10 > 6/10))
    rfl
  exact ⟨rfl, h2, by rw [h2]; decide⟩

/-- C9 (amended): in the general-query branch, a CHW alert carrying the
truncated message excerpt and the stated reason is dispatched exactly when
`risk_level > 0.6`; the urgent call-to-action is prepended exactly when,
in addition to `risk_level > 0.6`, the action is "emergency" or
`risk_level > 0.8`; at or below 0.6 no SMS of any kind is sent. -/
theorem c9_risk_thresholds_amended (st : AppSettings) (risk : RiskResult) (u : UserRec)
    (phone text : String)
    (h : classify text (u.language.getD "en") st.SMS_DISCLAIMER = Branch.general) :
    ((process_message st risk u phone text).1 =
      (if risk.risk_level > 6/10 ∧
          (risk.recommended_action = "emergency" ∨ risk.risk_level > 8/10)
       then "URGENT: " ++ risk.response_text ++ " Call 1195 or go to clinic NOW."
       else risk.response_text) ++
      cadenceSuffix (u.interaction_count + 1) u.is_tea_farm_worker (u.language.getD "en")) ∧
    (risk.risk_level > 6/10 →
      Effect.sms st.CHW_PHONE
          (chwMessage phone (pyTake 50 text ++ " - Risk: " ++ risk.reason)
            (if u.is_tea_farm_worker then "Mulot tea zone" else "Bomet area"))
        ∈ (process_message st risk u phone text).2.1) ∧
    (risk.risk_level ≤ 6/10 →
      ∀ dest body, Effect.sms dest body ∉ (process_message st risk u phone text).2.1) := by
  refine ⟨?_, fun h6 => ?_, fun h6 dest body => ?_⟩
  · unfold process_message
    dsimp only
    rw [h]
    dsimp only
    rw [riskHandling_fst]
  · unfold process_message
    dsimp only
    rw [h]
    unfold riskHandling
    rw [if_pos h6]
    simp [chwAlertEffects, log_metric]
  · unfold process_message
    dsimp only
    rw [h]
    unfold riskHandling
    rw [if_neg (not_lt.mpr h6)]
    simp [cadenceEffects, log_metric]

/-- Witness for C9 (amended): risk level 0.7 with action "monitor" sends the
CHW alert but leaves the reply without the URGENT prefix. -/
theorem c9_witness :
    (process_message ⟨"D", "chw", "", ""⟩ ⟨"Ok.", 7/10, "rsn", "monitor"⟩
        ⟨none, none, false, 1, []⟩ "p" "hello").1 = "Ok." ∧
    Effect.sms "chw"
        (chwMessage "p" (pyTake 50 "hello" ++ " - Risk: " ++ "rsn") "Bomet area")
      ∈ (process_message ⟨"D", "chw", "", ""⟩ ⟨"Ok.", 7/10, "rsn", "monitor"⟩
        ⟨none, none, false, 1, []⟩ "p" "hello").2.1 := by
  have hc := c9_risk_thresholds_amended ⟨"D", "chw", "", ""⟩ ⟨"Ok.", 7/10, "rsn", "monitor"⟩
    ⟨none, none, false, 1, []⟩ "p" "hello" (by decide)
  constructor
  · rw [hc.1]
    rw [if_neg ?hneg]
    case hneg =>
      rintro ⟨-, hem | h8⟩
      · exact absurd hem (by decide)
      · exact absurd h8 (by norm_num : ¬ ((7 : ℚ)/10 > 8/10))
    rfl
  · exact hc.2.1 (by norm_num : (7 : ℚ)/10 > 6/10)

/-! ## C10: phone masking in notification bodies -/

lemma infix_append_decomp {α : Type} {w a b : List α} (h : w <:+: a ++ b) :
    w <:+: a ∨ w <:+: b ∨
      ∃ s t, s ≠ [] ∧ t ≠ [] ∧ w = s ++ t ∧ s <:+ a ∧ t <+: b := by
  obtain ⟨u, v, huv⟩ := h
  have huv' : u ++ (w ++ v) = a ++ b := by
    rw [← List.append_assoc]
    exact huv
  rcases List.append_eq_append_iff.mp huv' with ⟨a', ha', hwv⟩ | ⟨c', _, hb⟩
  · rcases List.append_eq_append_iff.mp hwv with ⟨w', hw', _⟩ | ⟨c₂, hw, hb₂⟩
    · left
      exact ⟨u, w', by rw [ha', hw']; simp [List.append_assoc]⟩
    · by_cases hanil : a' = []
      · right; left
        subst hanil
        simp only [List.nil_append] at hw
        exact ⟨[], v, by rw [hb₂, ← hw]; simp⟩
      · by_cases hcnil : c₂ = []
        · left
          subst hcnil
          simp only [List.append_nil] at hw
          exact ⟨u, [], by rw [ha', ← hw]; simp⟩
        · right; right
          exact ⟨a', c₂, hanil, hcnil, hw, ⟨u, ha'.symm⟩, ⟨v, hb₂.symm⟩⟩
  · right; left
    exact ⟨c', v, by rw [hb, List.append_assoc]⟩

lemma not_infix_of_clean {w a : List Char} (hne : w ≠ [])
    (hdig : ∀ c ∈ w, c.isDigit = true) (hcl : ∀ c ∈ a, c.isDigit = false) :
    ¬ w <:+: a := by
  intro h
  cases w with
  | nil => exact hne rfl
  | cons c cs =>
      have hca : c ∈ a := h.subset (by simp)
      have h1 := hdig c (by simp)
      rw [hcl c hca] at h1
      cases h1

lemma prefix_head {t b : List Char} (h : t <+: b) (hne : t ≠ []) :
    t.head? = b.head? := by
  cases t with
  | nil => exact absurd rfl hne
  | cons c cs =>
      obtain ⟨r, hr⟩ := h
      rw [← hr]
      rfl

lemma infix_skip_clean {w a b : List Char} (hne : w ≠ [])
    (hdig : ∀ c ∈ w, c.isDigit = true) (hcl : ∀ c ∈ a, c.isDigit = false)
    (h : w <:+: a ++ b) : w <:+: b := by
  rcases infix_append_decomp h with h1 | h1 | ⟨s, t, hs, _, hw, hsa, _⟩
  · exact absurd h1 (not_infix_of_clean hne hdig hcl)
  · exact h1
  · cases s with
    | nil => exact absurd rfl hs
    | cons c cs =>
        have hca : c ∈ a := hsa.subset (by simp)
        have hcw : c ∈ w := by rw [hw]; simp
        have h1 := hdig c hcw
        rw [hcl c hca] at h1
        cases h1

lemma infix_skip_block {w a d e : List Char} (hne : w ≠ [])
    (hdig : ∀ c ∈ w, c.isDigit = true) (hna : ¬ w <:+: a)
    (hdne : d ≠ []) (hdcl : ∀ c ∈ d, c.isDigit = false)
    (h : w <:+: a ++ (d ++ e)) : w <:+: e := by
  have h2 : w <:+: d ++ e := by
    rcases infix_append_decomp h with h1 | h1 | ⟨s, t, _, ht, hw, _, htb⟩
    · exact absurd h1 hna
    · exact h1
    · cases t with
      | nil => exact absurd rfl ht
      | cons c cs =>
          have hcd : c ∈ d := by
            cases d with
            | nil => exact absurd rfl hdne
            | cons d0 d1 =>
                have hh := prefix_head htb (by simp)
                simp only [List.cons_append, List.head?_cons] at hh
                rw [Option.some_inj] at hh
                rw [hh]
                simp
          have hcw : c ∈ w := by rw [hw]; simp
          have h1 := hdig c hcw
          rw [hdcl c hcd] at h1
          cases h1
  exact infix_skip_clean hne hdig hdcl h2

lemma pyLastFour_length_le (s : String) : (pyLastFour s).data.length ≤ 4 := by
  simp only [pyLastFour, List.length_drop]
  omega

lemma not_infix_lastFour {w : List Char} (p : String) (hlen : 4 < w.length) :
    ¬ w <:+: (pyLastFour p).data := by
  intro h
  have h1 := h.length_le
  have h2 := pyLastFour_length_le p
  omega

/-- Counterexample for C10: for the four-character phone number "1234", the
interpolated `phone[-4:]` is the entire phone number, so the CHW alert body
does contain the subject's full phone number. -/
theorem c10_counterexample :
    pyLastFour "1234" = "1234" ∧
    ("1234" : String).data <:+: (chwMessage "1234" "pain" "Bomet area").data := by
  refine ⟨by decide, ?_⟩
  exact ⟨("ALERT: High-risk pregnancy reported. Masked user ").data,
    (" mentioned pain. Contact urgently. Location area: Bomet area.").data, by decide⟩

/-- C10 (amended): each notification body interpolates only `phone[-4:]` —
the body is a function of the last four characters of the phone number
(noninterference), which do occur in the body — and for a phone number of
more than 4 digit characters that does not itself occur in the other
interpolated inputs, the full number never occurs in the body.  (For phone
numbers of at most 4 characters, `phone[-4:]` is the whole number, which is
what the counterexample exhibits.) -/
theorem c10_phone_masking_amended :
    (∀ p1 p2 signs loc : String, pyLastFour p1 = pyLastFour p2 →
      chwMessage p1 signs loc = chwMessage p2 signs loc) ∧
    (∀ p1 p2 reason : String, pyLastFour p1 = pyLastFour p2 →
      farmClinicMessage p1 reason = farmClinicMessage p2 reason) ∧
    (∀ phone signs loc : String,
      (pyLastFour phone).data <:+: (chwMessage phone signs loc).data) ∧
    (∀ phone reason : String,
      (pyLastFour phone).data <:+: (farmClinicMessage phone reason).data) ∧
    (∀ phone signs loc : String, 4 < phone.data.length →
      (∀ c ∈ phone.data, c.isDigit = true) →
      ¬ phone.data <:+: signs.data → ¬ phone.data <:+: loc.data →
      ¬ phone.data <:+: (chwMessage phone signs loc).data) ∧
    (∀ phone reason : String, 4 < phone.data.length →
      (∀ c ∈ phone.data, c.isDigit = true) →
      ¬ phone.data <:+: reason.data →
      ¬ phone.data <:+: (farmClinicMessage phone reason).data) := by
  have hne : ∀ {w : List Char}, 4 < w.length → w ≠ [] := by
    intro w hl hnil
    rw [hnil] at hl
    simp at hl
  refine ⟨?_, ?_, ?_, ?_, ?_, ?_⟩
  · intro p1 p2 signs loc h
    unfold chwMessage
    rw [h]
  · intro p1 p2 reason h
    unfold farmClinicMessage
    rw [h]
  · intro phone signs loc
    refine ⟨("ALERT: High-risk pregnancy reported. Masked user ").data,
      (" mentioned " ++ signs ++ ". Contact urgently. Location area: " ++ loc ++ ".").data, ?_⟩
    simp [chwMessage, List.append_assoc]
  · intro phone reason
    refine ⟨("Referral: Pregnant woman from tea estate needs " ++ reason ++ ". Contact ").data,
      (" for appointment. MamaShield AI referral.").data, ?_⟩
    simp [farmClinicMessage, List.append_assoc]
  · intro phone signs loc hlen hdig hsig hloc hinf
    have h0 : phone.data <:+:
        ("ALERT: High-risk pregnancy reported. Masked user ").data ++
          ((pyLastFour phone).data ++
            ((" mentioned ").data ++
              (signs.data ++
                ((". Contact urgently. Location area: ").data ++
                  (loc.data ++ (".").data))))) := by
      simpa [chwMessage, List.append_assoc] using hinf
    have h1 := infix_skip_clean (hne hlen) hdig (by decide) h0
    have h2 := infix_skip_block (hne hlen) hdig (not_infix_lastFour phone hlen)
      (by decide) (by decide) h1
    have h3 := infix_skip_block (hne hlen) hdig hsig (by decide) (by decide) h2
    have h4 : phone.data <:+: loc.data ++ ((".").data ++ ([] : List Char)) := by
      simpa using h3
    have h5 := infix_skip_block (hne hlen) hdig hloc (by decide) (by decide) h4
    have h6 := h5.length_le
    simp only [List.length_nil] at h6
    omega
  · intro phone reason hlen hdig hres hinf
    have h0 : phone.data <:+:
        ("Referral: Pregnant woman from tea estate needs ").data ++
          (reason.data ++
            ((". Contact ").data ++
              ((pyLastFour phone).data ++
                (" for appointment. MamaShield AI referral.").data))) := by
      simpa [farmClinicMessage, List.append_assoc] using hinf
    have h1 := infix_skip_clean (hne hlen) hdig (by decide) h0
    have h2 := infix_skip_block (hne hlen) hdig hres (by decide) (by decide) h1
    have h3 : phone.data <:+: (pyLastFour phone).data ++
        ((" for appointment. MamaShield AI referral.").data ++ ([] : List Char)) := by
      simpa using h2
    have h4 := infix_skip_block (hne hlen) hdig (not_infix_lastFour phone hlen)
      (by decide) (by decide) h3
    have h5 := h4.length_le
    simp only [List.length_nil] at h5
    omega

/-- Witness for C10 (amended): a realistic ten-digit phone number does not
occur in the CHW alert body built from it. -/
theorem c10_witness :
    ¬ ("0712345678" : String).data <:+:
      (chwMessage "0712345678" "severe pain" "Bomet area").data :=
  c10_phone_masking_amended.2.2.2.2.1 "0712345678" "severe pain" "Bomet area"
    (by decide) (by decide) (by decide) (by decide)

/-! ## C4: risk-assessment parsing -/

lemma head?_drop_of_findIdx? {p : Char → Bool} :
    ∀ (l : List Char) (k : Nat), l.findIdx? p = some k →
      ∃ c, (l.drop k).head? = some c ∧ p c = true := by
  intro l
  induction l with
  | nil => intro k h; simp at h
  | cons x xs ih =>
      intro k h
      rw [List.findIdx?_cons] at h
      by_cases hx : p x
      · rw [if_pos hx] at h
        have hk : k = 0 := by simpa using h.symm
        subst hk
        exact ⟨x, rfl, hx⟩
      · rw [if_neg hx] at h
        rw [List.findIdx?_start_succ] at h
        cases hxs : xs.findIdx? p with
        | none => rw [hxs] at h; simp at h
        | some k' =>
            rw [hxs] at h
            simp only [Option.map_some', Option.some_inj] at h
            obtain ⟨c, hc, hp⟩ := ih k' hxs
            refine ⟨c, ?_, hp⟩
            rw [← h]
            simpa using hc

lemma head?_take_succ {α : Type} (l : List α) (m : Nat) :
    (l.take (m + 1)).head? = l.head? := by
  cases l <;> rfl

lemma drop_length_sub_one_of_reverse_head {l : List Char} {c : Char}
    (h : l.reverse.head? = some c) : l.drop (l.length - 1) = [c] := by
  cases hr : l.reverse with
  | nil => rw [hr] at h; cases h
  | cons c0 t =>
      rw [hr] at h
      have hc0 : c0 = c := by simpa using h
      subst hc0
      have hl : l = t.reverse ++ [c0] := by
        have := congrArg List.reverse hr
        simpa using this
      rw [hl]
      have hlen : (t.reverse ++ [c0]).length - 1 = t.reverse.length := by
        simp
      rw [hlen, List.drop_left]

lemma drop_ne_nil_lt {l : List Char} {k : Nat} {c : Char}
    (h : (l.drop k).head? = some c) : k < l.length := by
  by_contra hk
  have hnil : l.drop k = [] := List.drop_eq_nil_of_le (by omega)
  rw [hnil] at h
  cases h

lemma extractJson_shape (raw : String) :
    extractJson raw = "" ∨ (extractJson raw).data.head? = some '{' ∨
      extractJson raw = "\x7d" := by
  unfold extractJson pySlice
  dsimp only
  cases hf : raw.data.findIdx? (fun d => d = '{') with
  | some k =>
      have hpf : pyFind raw '{' = (k : Int) := by unfold pyFind; rw [hf]
      rw [hpf]
      obtain ⟨c, hc, hp⟩ := head?_drop_of_findIdx? raw.data k hf
      have hck : c = '{' := by simpa using hp
      subst hck
      have hkn : k < raw.data.length := drop_ne_nil_lt hc
      have ha : pyNorm raw.data.length ((k : Nat) : Int) = k := by
        unfold pyNorm
        rw [if_neg (by omega : ¬ ((k : Nat) : Int) < 0)]
        omega
      rw [ha]
      cases hbk : pyNorm raw.data.length (pyRfind raw '}' + 1) - k with
      | zero =>
          left
          simp only [List.take_zero]
      | succ m =>
          right; left
          rw [head?_take_succ]
          exact hc
  | none =>
      have hpf : pyFind raw '{' = -1 := by unfold pyFind; rw [hf]
      rw [hpf]
      cases hr : raw.data.reverse.findIdx? (fun d => d = '}') with
      | none =>
          left
          have hpr : pyRfind raw '}' = -1 := by unfold pyRfind; rw [hr]
          rw [hpr]
          have hb : pyNorm raw.data.length (-1 + 1) = 0 := by
            unfold pyNorm
            norm_num
          rw [hb]
          simp only [Nat.zero_sub, List.take_zero]
      | some j =>
          obtain ⟨c, hc, hp⟩ := head?_drop_of_findIdx? raw.data.reverse j hr
          have hck : c = '}' := by simpa using hp
          subst hck
          have hjn : j < raw.data.length := by
            have := drop_ne_nil_lt hc
            simpa using this
          have hpr : pyRfind raw '}' = ((raw.data.length - 1 - j : Nat) : Int) := by
            unfold pyRfind
            rw [hr]
          rw [hpr]
          have ha : pyNorm raw.data.length (-1) = raw.data.length - 1 := by
            unfold pyNorm
            rw [if_pos (by omega : (-1 : Int) < 0)]
            omega
          have hb : pyNorm raw.data.length (((raw.data.length - 1 - j : Nat) : Int) + 1) =
              raw.data.length - j := by
            unfold pyNorm
            rw [if_neg (by omega : ¬ (((raw.data.length - 1 - j : Nat) : Int) + 1) < 0)]
            omega
          rw [ha, hb]
          by_cases hj : j = 0
          · subst hj
            right; right
            have hone : raw.data.length - 0 - (raw.data.length - 1) = 1 := by omega
            rw [hone]
            have hdrop : raw.data.drop (raw.data.length - 1) = ['}'] := by
              apply drop_length_sub_one_of_reverse_head
              simpa using hc
            rw [hdrop]
            decide
          · left
            have hzero : raw.data.length - j - (raw.data.length - 1) = 0 := by omega
            rw [hzero]
            simp only [List.take_zero]

lemma skipWs_open_brace (cs : List Char) : skipWs ('{' :: cs) = '{' :: cs := by
  rw [skipWs]
  rw [if_neg (by decide : ¬ isJsonWs '{' = true)]

lemma parseValue_open_brace (fuel : Nat) (cs : List Char) :
    parseValue (fuel + 1) ('{' :: cs) =
      (match skipWs cs with
       | '}' :: r => some (Json.obj [], r)
       | _ => do
           let (ms, r) ← parseMembers fuel cs
           pure (Json.obj ms, r)) := by
  rw [parseValue, skipWs_open_brace]
  rfl

lemma json_loads_obj_of_head {s : String} {v : Json} (h : json_loads s = some v)
    (hh : s.data.head? = some '{') : ∃ ms, v = Json.obj ms := by
  unfold json_loads at h
  cases hd : s.data with
  | nil => rw [hd] at hh; cases hh
  | cons c cs =>
      have hc : c = '{' := by rw [hd] at hh; simpa using hh
      subst hc
      rw [hd] at h
      simp only [List.length_cons] at h
      cases hpv : parseValue (cs.length + 1 + 1) ('{' :: cs) with
      | none => rw [hpv] at h; cases h
      | some pr =>
          obtain ⟨v', rest⟩ := pr
          rw [hpv] at h
          dsimp only at h
          have hv : v = v' := by
            by_cases hsw : skipWs rest = []
            · rw [if_pos hsw] at h
              exact (Option.some_inj.mp h).symm
            · rw [if_neg hsw] at h
              cases h
          subst hv
          rw [parseValue_open_brace] at hpv
          split at hpv
          · simp only [Option.some_inj, Prod.mk.injEq] at hpv
            exact ⟨[], hpv.1.symm⟩
          · cases hpm : parseMembers (cs.length + 1) cs with
            | none => rw [hpm] at hpv; simp at hpv
            | some q =>
                obtain ⟨ms, r⟩ := q
                rw [hpm] at hpv
                simp only [Option.pure_def, Option.bind_eq_bind, Option.some_bind,
                  Option.some_inj, Prod.mk.injEq] at hpv
                exact ⟨ms, hpv.1.symm⟩

lemma pyAllKeys_obj_keys :
    ∀ (keys : List String) (ms : List (String × Json)),
      pyAllKeys keys (Json.obj ms) = some true →
      ∀ k ∈ keys, k ∈ jsonKeys (Json.obj ms) := by
  intro keys
  induction keys with
  | nil => intro ms _ k hk; cases hk
  | cons k0 ks ih =>
      intro ms h k hk
      rw [pyAllKeys] at h
      cases hin : pyIn k0 (Json.obj ms) with
      | none => rw [hin] at h; cases h
      | some b =>
          rw [hin] at h
          cases b with
          | false => cases h
          | true =>
              rcases List.mem_cons.mp hk with rfl | hks
              · have hany : ms.any (fun m => m.1 = k) = true := by
                  simpa [pyIn] using hin
                obtain ⟨m, hm, hmk⟩ := List.any_eq_true.mp hany
                simp only [jsonKeys, List.mem_map]
                exact ⟨m, hm, by simpa using hmk⟩
              · exact ih ms h k hks

set_option maxRecDepth 8000 in
/-- Counterexample for C4: a completion whose extracted JSON parses and has
exactly the three required keys is returned as-is, without any `reason`
field — refuting the claim that every result contains all four of
response_text, risk_level, reason, recommended_action. -/
theorem c4_counterexample :
    jsonKeys (get_ai_risk_assessment "PLAIN"
        "\x7b\"response_text\": \"ok\", \"risk_level\": 0.5, \"recommended_action\": \"monitor\"\x7d") =
      ["response_text", "risk_level", "recommended_action"] ∧
    "reason" ∉ jsonKeys (get_ai_risk_assessment "PLAIN"
        "\x7b\"response_text\": \"ok\", \"risk_level\": 0.5, \"recommended_action\": \"monitor\"\x7d") := by
  constructor
  · decide
  · decide

/-- C4 (amended): `get_ai_risk_assessment` is total (never raises) and
behaves as follows.  If the raw completion contains no "```json" marker and
lacks a `\x7b` or a `\x7d`, the result is the Standard-advice default built
from the raw text.  Otherwise the first-`\x7b`-to-last-`\x7d` substring is
extracted: if it fails to parse, or the parsed value fails the
three-required-keys check (including the TypeError case), the result is the
Parsing-error fallback whose response_text is the plain completion output;
if the check passes, the parsed object itself is returned — it contains the
three required keys but need not contain `reason`.  Every result is the
Standard-advice default, the Parsing-error fallback, or a parsed object
containing the three required keys. -/
theorem c4_risk_parse_amended (plain raw : String) :
    ((containsS raw "```json" = false ∧
      (raw.data.contains '{' = false ∨ raw.data.contains '}' = false)) →
      get_ai_risk_assessment plain raw = standardResult raw) ∧
    ((containsS raw "```json" = true ∨
      (raw.data.contains '{' = true ∧ raw.data.contains '}' = true)) →
      ((json_loads (extractJson raw) = none →
          get_ai_risk_assessment plain raw = parseErrorResult plain) ∧
       (∀ rd, json_loads (extractJson raw) = some rd →
          (pyAllKeys requiredKeys rd ≠ some true →
            get_ai_risk_assessment plain raw = parseErrorResult plain) ∧
          (pyAllKeys requiredKeys rd = some true →
            get_ai_risk_assessment plain raw = rd)))) ∧
    (get_ai_risk_assessment plain raw = standardResult raw ∨
     get_ai_risk_assessment plain raw = parseErrorResult plain ∨
     (∃ ms, get_ai_risk_assessment plain raw = Json.obj ms ∧
        ∀ k ∈ requiredKeys, k ∈ jsonKeys (Json.obj ms))) := by
  have hval : ∀ (hj : containsS raw "```json" = true ∨
      (raw.data.contains '{' = true ∧ raw.data.contains '}' = true)),
      get_ai_risk_assessment plain raw = validateAndReturn plain (extractJson raw) := by
    intro hj
    unfold get_ai_risk_assessment
    rcases hj with hmd | ⟨h1, h2⟩
    · rw [if_pos hmd]
    · by_cases hmd : containsS raw "```json" = true
      · rw [if_pos hmd]
      · rw [if_neg hmd]
        rw [if_pos (by rw [h1, h2]; rfl :
          (raw.data.contains '{' && raw.data.contains '}') = true)]
  refine ⟨fun ⟨hmd, hbr⟩ => ?_,
    fun hj => ⟨fun hload => ?_, fun rd hload => ⟨fun hne => ?_, fun hall => ?_⟩⟩, ?_⟩
  · unfold get_ai_risk_assessment
    rw [if_neg (by rw [hmd]; exact Bool.false_ne_true)]
    rw [if_neg ?hand]
    case hand =>
      rcases hbr with hb | hb
      · rw [hb]
        simp
      · rw [hb]
        simp
  · rw [hval hj]
    unfold validateAndReturn
    rw [hload]
  · rw [hval hj]
    unfold validateAndReturn
    rw [hload]
    dsimp only
    cases hv : pyAllKeys requiredKeys rd with
    | none => rfl
    | some b =>
        cases b with
        | false => rfl
        | true => exact absurd hv hne
  · rw [hval hj]
    unfold validateAndReturn
    rw [hload]
    dsimp only
    rw [hall]
  · by_cases hj : containsS raw "```json" = true ∨
        (raw.data.contains '{' = true ∧ raw.data.contains '}' = true)
    · rw [hval hj]
      unfold validateAndReturn
      cases hload : json_loads (extractJson raw) with
      | none => right; left; rfl
      | some rd =>
          dsimp only
          cases hv : pyAllKeys requiredKeys rd with
          | none =>
              right; left
              rfl
          | some b =>
              cases b with
              | false =>
                  right; left
                  rfl
              | true =>
                  right; right
                  rcases extractJson_shape raw with hsh | hsh | hsh
                  · have hnone : json_loads ("" : String) = none := rfl
                    rw [hsh, hnone] at hload
                    cases hload
                  · obtain ⟨ms, rfl⟩ := json_loads_obj_of_head hload hsh
                    exact ⟨ms, rfl, pyAllKeys_obj_keys requiredKeys ms hv⟩
                  · have hnone : json_loads ("\x7d" : String) = none := rfl
                    rw [hsh, hnone] at hload
                    cases hload
    · left
      push_neg at hj
      obtain ⟨hmd, hbr⟩ := hj
      unfold get_ai_risk_assessment
      rw [if_neg hmd]
      rw [if_neg ?hand2]
      case hand2 =>
        intro hcon
        simp only [Bool.and_eq_true] at hcon
        exact hbr hcon.1 hcon.2

/-- Witness for C4 (amended): a completion with no JSON-like content at all
yields the Standard-advice default built from the raw text. -/
theorem c4_witness :
    get_ai_risk_assessment "P" "hello" = standardResult "hello" :=
  (c4_risk_parse_amended "P" "hello").1 ⟨by decide, Or.inl (by decide)⟩

end MamaShield



